import Mathlib

/-! # Cinema 4D shader plugin template: embedding and verification

The two translation units of the template are
`source/%!PluginNameAsID!%.cpp` (the shader class with its four callbacks and
the registration function) and `source/Main.cpp` (`PluginStart`, `PluginEnd`,
`PluginMessage`).

The C++ methods mutate the object they are called on and may mutate what
their pointer arguments point to, so every callback is embedded as a function
that takes the instance and the pointed-to objects and returns them again
next to the C++ return value.  Calls into the SDK that have an effect on the
host (`RegisterShaderPlugin`, `GeLoadString`, `GePrint`, `resource.Init`) are
recorded in a log, and what the host answers is a parameter.

The template placeholders (`%!ID!%`, `%!PluginName!%`, ...) and the constants
of headers that are not part of the sources are parameters as well.
-/

namespace C4DPlugin

/-! ## SDK data types -/

/-- Modelled from the spec: the SDK's `Vector` (from `c4d.h`, which is not
part of the sources), "a single 3-component color value".  The components are
only stored and copied by the template, never computed with, and the one
literal (`0.5`) is exact in binary floating point, so they are rationals. -/
structure Vector where
  x : Rat
  y : Rat
  z : Rat
  deriving DecidableEq, Repr

/-- Modelled from the spec: the SDK constructor `Vector(Float in)`, which
sets all three components to `in`. -/
def Vector.ofScalar (a : Rat) : Vector := ⟨a, a, a⟩

/-- Modelled from the spec: the SDK's default constructor `Vector()`, the
zero vector. -/
def Vector.zero : Vector := ⟨0, 0, 0⟩

/-- Modelled from the spec: the value stored under one id of a container
(the SDK's `GeData`); `DA_NIL` stands for "no entry". -/
inductive GeData where
  | DA_NIL : GeData
  | DA_LONG : Int → GeData
  | DA_REAL : Rat → GeData
  | DA_VECTOR : Vector → GeData
  | DA_STRING : String → GeData
  deriving DecidableEq, Repr

/-- Modelled from the spec: the SDK's `BaseContainer` (from `c4d.h`, which is
not part of the sources), the "container" the color is read from: one value
per `Int32` id. -/
structure BaseContainer where
  GetData : Int → GeData

/-- Modelled from the spec: `BaseContainer::SetVector(id, v)` stores the
vector `v` under `id` and touches no other id. -/
def BaseContainer.SetVector (bc : BaseContainer) (id : Int) (v : Vector) : BaseContainer :=
  ⟨fun k => if k = id then GeData.DA_VECTOR v else bc.GetData k⟩

/-- Modelled from the spec: `BaseContainer::GetVector(id)` returns the vector
stored under `id`, and the default `Vector()` when there is none. -/
def BaseContainer.GetVector (bc : BaseContainer) (id : Int) : Vector :=
  match bc.GetData id with
  | GeData.DA_VECTOR v => v
  | _ => Vector.zero

/-- Modelled from the spec: the SDK's `BaseShader` node, of which the
template uses the data container only (`GetDataInstance()`).  `Init` casts
its `GeListNode *` to `BaseShader *`, so a node is a `BaseShader` too. -/
structure BaseShader where
  data : BaseContainer

/-- Modelled from the spec: the SDK's `InitRenderStruct`; no callback reads
it. -/
structure InitRenderStruct where
  version : Int
  fps : Int
  flags : Int
  deriving DecidableEq, Repr

/-- Modelled from the spec: the SDK's `ChannelData`; no callback reads it. -/
structure ChannelData where
  p : Vector
  n : Vector
  texflag : Int
  deriving DecidableEq, Repr

/-- Modelled from the spec: the SDK's `INITRENDERRESULT` enumeration. -/
inductive INITRENDERRESULT where
  | INITRENDERRESULT_OK
  | INITRENDERRESULT_OUTOFMEMORY
  | INITRENDERRESULT_ASSETMISSING
  | INITRENDERRESULT_UNKNOWNERROR
  | INITRENDERRESULT_THREADEDLOCK
  deriving DecidableEq, Repr

/-! ## Template parameters -/

/-- What the wizard substitutes for the placeholders, and the constants the
plugin's own generated headers (`c4d_symbols.h`, `%!PluginNameAsID!%.h`,
neither part of the sources) define. -/
structure Template where
  /-- Placeholder `%!PluginName!%`. -/
  PluginName : String
  /-- Placeholder `%!PluginNameAsID!%`. -/
  PluginNameAsID : String
  /-- Placeholder `%!AuthorName!%`. -/
  AuthorName : String
  /-- Placeholder `$YEAR`. -/
  YEAR : String
  /-- Constant `ID_%!PluginNameAsUppercaseID!%`, defined as `%!ID!%`. -/
  ID : Int
  /-- Constant `IDS_%!PluginNameAsUppercaseID!%` of `c4d_symbols.h`. -/
  IDS : Int
  /-- Constant `%!PluginNameAsUppercaseID!%_COLOR` of `%!PluginNameAsID!%.h`. -/
  COLOR : Int

/-! ## `%!PluginNameAsID!%.cpp`: the shader class -/

/-- The macro `#define DEFAULT_COLOR Vector(0.5)`. -/
def DEFAULT_COLOR : Vector := Vector.ofScalar 0.5

/-- The class `%!PluginNameAsID!%Data`: its one member, `Vector color`. -/
structure PluginData where
  color : Vector
  deriving DecidableEq, Repr

namespace PluginData

/-- Source `static NodeData * Alloc(void)`, which returns
`NewObjClear(...Data)`: a new instance whose memory is cleared, so the color
is the zero vector. -/
def Alloc : PluginData := ⟨Vector.zero⟩

/-- What `Init` returns and leaves behind. -/
structure InitResult where
  ret : Bool
  self : PluginData
  node : BaseShader

/-- Source `Bool ...Data::Init(GeListNode * node)`:
```
BaseContainer * data = ((BaseShader *)node)->GetDataInstance();
data->SetVector(..._COLOR, DEFAULT_COLOR);
return true;
``` -/
def Init (t : Template) (self : PluginData) (node : BaseShader) : InitResult :=
  let data := node.data
  let data := data.SetVector t.COLOR DEFAULT_COLOR
  { ret := true, self := self, node := { node with data := data } }

/-- What `InitRender` returns and leaves behind. -/
structure InitRenderResult where
  ret : INITRENDERRESULT
  self : PluginData
  sh : BaseShader

/-- Source `INITRENDERRESULT ...Data::InitRender(BaseShader * sh, const InitRenderStruct& irs)`:
```
BaseContainer * data = sh->GetDataInstance();
color = data->GetVector(..._COLOR);
return INITRENDERRESULT_OK;
``` -/
def InitRender (t : Template) (self : PluginData) (sh : BaseShader)
    (_irs : InitRenderStruct) : InitRenderResult :=
  let data := sh.data
  let self := { self with color := data.GetVector t.COLOR }
  { ret := INITRENDERRESULT.INITRENDERRESULT_OK, self := self, sh := sh }

/-- What `FreeRender` leaves behind (it returns `void`). -/
structure FreeRenderResult where
  self : PluginData
  sh : BaseShader

/-- Source `void ...Data::FreeRender(BaseShader * sh)`, whose body is the
comment `free owned memory here` and nothing else. -/
def FreeRender (self : PluginData) (sh : BaseShader) : FreeRenderResult :=
  { self := self, sh := sh }

/-- What `Output` returns and leaves behind. -/
structure OutputResult where
  ret : Vector
  self : PluginData
  deriving DecidableEq, Repr

/-- Source `Vector ...Data::Output(BaseShader * chn, ChannelData * cd)`:
```
Vector col = color;
return col;
```
Neither pointer is dereferenced, so both may be null (`none`). -/
def Output (self : PluginData) (_chn : Option BaseShader) (_cd : Option ChannelData) :
    OutputResult :=
  let col := self.color
  { ret := col, self := self }

end PluginData

/-! ## Calls that reach the host -/

/-- One entry of the call log: a call of the registration function, or a call
into the SDK with an effect on the host, with its arguments (the `Alloc`
function pointer passed to `RegisterShaderPlugin` is a constant and is left
out). -/
inductive HostCall where
  | Register_PluginNameAsID : HostCall
  | GeLoadString : Int → HostCall
  | RegisterShaderPlugin : Int → String → Int → String → Int → HostCall
  | GePrint : String → HostCall
  | resource_Init : HostCall
  deriving DecidableEq, Repr

/-- Whether the entry is a `GePrint` call, whatever it printed. -/
def HostCall.isGePrint : HostCall → Bool
  | HostCall.GePrint _ => true
  | _ => false

/-- The log of calls, oldest first. -/
abbrev Log := List HostCall

/-- What the host answers.  The SDK functions are not part of the sources, so
their answers are parameters; an answer may depend on everything that was
called before (the log at the time of the call). -/
structure Host where
  /-- The string `GeLoadString(id)` returns. -/
  GeLoadString : Log → Int → String
  /-- Whether `RegisterShaderPlugin(id, str, info, Alloc, name, disklevel)`
  succeeds. -/
  RegisterShaderPlugin : Log → Int → String → Int → String → Int → Bool
  /-- Whether `resource.Init()` succeeds. -/
  resource_Init : Log → Bool

/-- Source `Bool Register_%!PluginNameAsID!%(void)`:
```
return RegisterShaderPlugin(ID_..., GeLoadString(IDS_...), 0, ...Data::Alloc, "%!PluginNameAsID!%", 0);
```
The first log entry records the call of the function itself. -/
def Register_PluginNameAsID (t : Template) (h : Host) (log : Log) : Bool × Log :=
  let log := log ++ [HostCall.Register_PluginNameAsID]
  let str := h.GeLoadString log t.IDS
  let log := log ++ [HostCall.GeLoadString t.IDS]
  let ret := h.RegisterShaderPlugin log t.ID str 0 t.PluginNameAsID 0
  let log := log ++ [HostCall.RegisterShaderPlugin t.ID str 0 t.PluginNameAsID 0]
  (ret, log)

/-! ## `Main.cpp` -/

/-- The banner `"%!PluginName!%, %!AuthorName!% $YEAR."` that `PluginStart`
prints. -/
def banner (t : Template) : String :=
  t.PluginName ++ ", " ++ t.AuthorName ++ " " ++ t.YEAR ++ "."

/-- Source `Bool PluginStart(void)`:
```
if (!Register_...()) return false;
GePrint("...");
return true;
``` -/
def PluginStart (t : Template) (h : Host) (log : Log) : Bool × Log :=
  let (registered, log) := Register_PluginNameAsID t h log
  if !registered then
    (false, log)
  else
    let log := log ++ [HostCall.GePrint (banner t)]
    (true, log)

/-- Source `void PluginEnd(void)`, with an empty body. -/
def PluginEnd (log : Log) : Log := log

/-- The message codes of the SDK that `PluginMessage` switches on (from
`c4d.h`, which is not part of the sources). -/
structure MessageCodes where
  C4DPL_INIT_SYS : Int
  C4DMSG_PRIORITY : Int
  C4DPL_BUILDMENU : Int
  deriving DecidableEq, Repr

/-- The `void *` argument of `PluginMessage`: an address, `0` for null. -/
abbrev VoidPtr := Nat

/-- Source `Bool PluginMessage(Int32 id, void * data)`:
```
switch (id) {
    case C4DPL_INIT_SYS:
        if (!resource.Init()) return false;
        return true;
    case C4DMSG_PRIORITY:
        return true;
    case C4DPL_BUILDMENU:
        break;
}
return false;
```
The `switch` is a chain of comparisons in the order of its labels. -/
def PluginMessage (m : MessageCodes) (h : Host) (log : Log) (id : Int) (_data : VoidPtr) :
    Bool × Log :=
  if id = m.C4DPL_INIT_SYS then
    let ok := h.resource_Init log
    let log := log ++ [HostCall.resource_Init]
    if !ok then
      (false, log)
    else
      (true, log)
  else if id = m.C4DMSG_PRIORITY then
    (true, log)
  else if id = m.C4DPL_BUILDMENU then
    (false, log)
  else
    (false, log)

/-! ## Sequences of callbacks on one instance -/

/-- One call the host makes on a shader instance, with its arguments. -/
inductive Callback where
  | Init : BaseShader → Callback
  | InitRender : BaseShader → InitRenderStruct → Callback
  | Output : Option BaseShader → Option ChannelData → Callback
  | FreeRender : BaseShader → Callback

/-- Whether the call is an `InitRender`. -/
def Callback.isInitRender : Callback → Bool
  | Callback.InitRender _ _ => true
  | _ => false

/-- What a callback returned. -/
inductive Reply where
  | Init : Bool → Reply
  | InitRender : INITRENDERRESULT → Reply
  | Output : Vector → Reply
  | FreeRender : Reply
  deriving DecidableEq, Repr

/-- The instance after one callback, and what the callback returned. -/
def call (t : Template) (self : PluginData) : Callback → PluginData × Reply
  | Callback.Init node =>
      let r := PluginData.Init t self node
      (r.self, Reply.Init r.ret)
  | Callback.InitRender sh irs =>
      let r := PluginData.InitRender t self sh irs
      (r.self, Reply.InitRender r.ret)
  | Callback.Output chn cd =>
      let r := PluginData.Output self chn cd
      (r.self, Reply.Output r.ret)
  | Callback.FreeRender sh =>
      let r := PluginData.FreeRender self sh
      (r.self, Reply.FreeRender)

/-- The instance after a sequence of callbacks, and what they returned, in
order. -/
def run (t : Template) (self : PluginData) : List Callback → PluginData × List Reply
  | [] => (self, [])
  | c :: cs =>
      let (self1, r) := call t self c
      let (self2, rs) := run t self1 cs
      (self2, r :: rs)

/-- Where an instance is in the host's lifecycle. -/
inductive Phase where
  | allocated
  | idle
  | rendering
  deriving DecidableEq, Repr

/-- The host lifecycle: after `Alloc` comes `Init`, then render passes, each
an `InitRender`, then `Output` calls, then a `FreeRender`.  Gives the phase
after the call, or `none` when the call is out of order. -/
def Phase.next : Phase → Callback → Option Phase
  | Phase.allocated, Callback.Init _ => some Phase.idle
  | Phase.idle, Callback.InitRender _ _ => some Phase.rendering
  | Phase.rendering, Callback.Output _ _ => some Phase.rendering
  | Phase.rendering, Callback.FreeRender _ => some Phase.idle
  | _, _ => none

/-- The phase after a sequence of calls, `none` when one is out of order. -/
def Phase.after : Phase → List Callback → Option Phase
  | p, [] => some p
  | p, c :: cs =>
      match p.next c with
      | some q => q.after cs
      | none => none

/-- The calls made on a freshly allocated instance follow the host lifecycle
so far (the sequence may stop anywhere, also between two render passes). -/
def followsLifecycle (cs : List Callback) : Prop :=
  (Phase.allocated.after cs).isSome = true

instance (cs : List Callback) : Decidable (followsLifecycle cs) := by
  unfold followsLifecycle; infer_instance

/-! ## Sample inputs -/

/-- A filled-in template. -/
def sampleTemplate : Template :=
  { PluginName := "Flat Color", PluginNameAsID := "FlatColor", AuthorName := "Jane Doe",
    YEAR := "2012", ID := 1000001, IDS := 10000, COLOR := 1000 }

/-- The values of the message codes in the SDK headers. -/
def sampleCodes : MessageCodes :=
  { C4DPL_INIT_SYS := 6, C4DMSG_PRIORITY := 0, C4DPL_BUILDMENU := 1001187 }

/-- A host on which registration and resource loading succeed. -/
def sampleHost : Host :=
  { GeLoadString := fun _ _ => "Flat Color",
    RegisterShaderPlugin := fun _ _ _ _ _ _ => true,
    resource_Init := fun _ => true }

/-- A color other than the default. -/
def sampleColor : Vector := ⟨1, 0, 1/4⟩

/-- A shader whose container holds `sampleColor` under the color id of
`sampleTemplate`, and nothing else. -/
def sampleShader : BaseShader :=
  { data := ⟨fun k => if k = 1000 then GeData.DA_VECTOR sampleColor else GeData.DA_NIL⟩ }

/-- A shader with an empty container. -/
def emptyShader : BaseShader :=
  { data := ⟨fun _ => GeData.DA_NIL⟩ }

/-- Some `InitRenderStruct`. -/
def sampleIrs : InitRenderStruct := { version := 1, fps := 30, flags := 0 }

/-! ## Lemmas -/

theorem DEFAULT_COLOR_eq : DEFAULT_COLOR = ⟨1/2, 1/2, 1/2⟩ := by
  simp only [DEFAULT_COLOR, Vector.ofScalar]
  norm_num

theorem GetVector_SetVector (bc : BaseContainer) (id : Int) (v : Vector) :
    (bc.SetVector id v).GetVector id = v := by
  simp [BaseContainer.SetVector, BaseContainer.GetVector]

theorem GetVector_of_GetData (bc : BaseContainer) (id : Int) (v : Vector)
    (h : bc.GetData id = GeData.DA_VECTOR v) : bc.GetVector id = v := by
  simp [BaseContainer.GetVector, h]

theorem call_color_of_not_InitRender (t : Template) (s : PluginData) (c : Callback)
    (h : c.isInitRender = false) : (call t s c).1.color = s.color := by
  cases c <;> simp_all [call, Callback.isInitRender, PluginData.Init, PluginData.Output,
    PluginData.FreeRender]

theorem run_cons (t : Template) (s : PluginData) (c : Callback) (cs : List Callback) :
    run t s (c :: cs) = ((run t (call t s c).1 cs).1, (call t s c).2 :: (run t (call t s c).1 cs).2) := by
  rfl

theorem run_append (t : Template) (s : PluginData) (as bs : List Callback) :
    run t s (as ++ bs) =
      ((run t (run t s as).1 bs).1, (run t s as).2 ++ (run t (run t s as).1 bs).2) := by
  induction as generalizing s with
  | nil => simp [run]
  | cons a as ih => simp [run_cons, ih]

theorem run_color_of_no_InitRender (t : Template) (s : PluginData) (cs : List Callback)
    (h : ∀ c ∈ cs, c.isInitRender = false) : (run t s cs).1.color = s.color := by
  induction cs generalizing s with
  | nil => simp [run]
  | cons c cs ih =>
      rw [run_cons]
      simp only
      rw [ih _ (fun d hd => h d (List.mem_cons_of_mem _ hd))]
      exact call_color_of_not_InitRender t s c (h c (List.mem_cons_self _ _))

theorem run_reply_of_no_InitRender (t : Template) (s : PluginData) (cs : List Callback)
    (h : ∀ c ∈ cs, c.isInitRender = false) (i : Nat) (chn : Option BaseShader)
    (cd : Option ChannelData) (hi : cs[i]? = some (Callback.Output chn cd)) :
    (run t s cs).2[i]? = some (Reply.Output s.color) := by
  induction cs generalizing s i with
  | nil => simp at hi
  | cons c cs ih =>
      rw [run_cons]
      cases i with
      | zero =>
          simp only [List.getElem?_cons_zero, Option.some.injEq] at hi
          subst hi
          simp [call, PluginData.Output]
      | succ j =>
          simp only [List.getElem?_cons_succ] at hi
          simp only [List.getElem?_cons_succ]
          rw [ih _ (fun d hd => h d (List.mem_cons_of_mem _ hd)) j hi]
          rw [call_color_of_not_InitRender t s c (h c (List.mem_cons_self _ _))]

theorem Phase.after_append (p : Phase) (as bs : List Callback) :
    p.after (as ++ bs) = (p.after as).bind (fun q => q.after bs) := by
  induction as generalizing p with
  | nil => simp [Phase.after]
  | cons a as ih =>
      simp only [List.cons_append, Phase.after]
      cases hq : p.next a with
      | none => simp
      | some q => simp [ih]

theorem Phase.rendering_of_after (cs : List Callback)
    (h : Phase.allocated.after cs = some Phase.rendering) :
    ∃ pre sh irs outs, cs = pre ++ Callback.InitRender sh irs :: outs ∧
      ∀ c ∈ outs, c.isInitRender = false := by
  induction cs using List.reverseRecOn with
  | nil => simp [Phase.after] at h
  | append_singleton cs c ih =>
      rw [Phase.after_append] at h
      cases hq : Phase.allocated.after cs with
      | none => simp [hq] at h
      | some q =>
          simp only [hq, Option.some_bind, Phase.after] at h
          cases q <;> cases c <;> simp [Phase.next] at h
          · exact ⟨cs, _, _, [], rfl, by simp⟩
          · rename_i chn cd
            obtain ⟨pre, sh, irs, outs, hcs, houts⟩ := ih hq
            refine ⟨pre, sh, irs, outs ++ [Callback.Output chn cd], by simp [hcs], ?_⟩
            intro c hc
            rcases List.mem_append.mp hc with hc | hc
            · exact houts c hc
            · simp at hc
              subst hc
              rfl

theorem Phase.rendering_before_Output (pre post : List Callback) (chn : Option BaseShader)
    (cd : Option ChannelData)
    (h : followsLifecycle (pre ++ Callback.Output chn cd :: post)) :
    Phase.allocated.after pre = some Phase.rendering := by
  unfold followsLifecycle at h
  rw [Phase.after_append] at h
  cases hq : Phase.allocated.after pre with
  | none => simp [hq] at h
  | some q =>
      simp only [hq, Option.some_bind, Phase.after] at h
      cases q <;> simp [Phase.next] at h
      rfl

theorem Register_PluginNameAsID_log (t : Template) (h : Host) (log : Log) :
    ∃ str : String, (Register_PluginNameAsID t h log).2 =
      log ++ [HostCall.Register_PluginNameAsID, HostCall.GeLoadString t.IDS,
        HostCall.RegisterShaderPlugin t.ID str 0 t.PluginNameAsID 0] :=
  ⟨h.GeLoadString (log ++ [HostCall.Register_PluginNameAsID]) t.IDS, by
    simp [Register_PluginNameAsID]⟩

theorem PluginStart_eq (t : Template) (h : Host) (log : Log) :
    PluginStart t h log =
      if (Register_PluginNameAsID t h log).1 = true then
        (true, (Register_PluginNameAsID t h log).2 ++ [HostCall.GePrint (banner t)])
      else (false, (Register_PluginNameAsID t h log).2) := by
  unfold PluginStart
  cases hr : (Register_PluginNameAsID t h log).1 <;> simp [hr]

/-! ## The claims -/

/-- C1: for every instance state `s` and all arguments `chn`, `cd`, `Output`
returns exactly `s.color` and leaves the color of the instance unchanged;
hence `Output` called on the same state with any other arguments returns the
same vector. -/
theorem C1_Output_returns_color (s : PluginData) (chn : Option BaseShader)
    (cd : Option ChannelData) :
    (PluginData.Output s chn cd).ret = s.color ∧
    (PluginData.Output s chn cd).self.color = s.color ∧
    ∀ (chn2 : Option BaseShader) (cd2 : Option ChannelData),
      (PluginData.Output s chn2 cd2).ret = (PluginData.Output s chn cd).ret := by
  refine ⟨rfl, rfl, ?_⟩
  intro chn2 cd2
  rfl

/-- C2: when the container of `sh` holds the vector `v` under the color id,
`InitRender` returns `INITRENDERRESULT_OK` for every `irs`, leaves the shader
(and its container) unchanged and stores `v` in the instance; in every
sequence of later calls without another `InitRender`, each `Output` call
returns `v`, whatever shader (with whatever container) it is given and
whatever `Init` calls rewrite containers in between. -/
theorem C2_InitRender_stores_color (t : Template) (self : PluginData) (sh : BaseShader)
    (irs : InitRenderStruct) (v : Vector)
    (hv : sh.data.GetData t.COLOR = GeData.DA_VECTOR v) :
    (PluginData.InitRender t self sh irs).ret = INITRENDERRESULT.INITRENDERRESULT_OK ∧
    (PluginData.InitRender t self sh irs).sh = sh ∧
    (PluginData.InitRender t self sh irs).self.color = v ∧
    ∀ cs : List Callback, (∀ c ∈ cs, c.isInitRender = false) →
      ∀ (i : Nat) (chn : Option BaseShader) (cd : Option ChannelData),
        cs[i]? = some (Callback.Output chn cd) →
        (run t (PluginData.InitRender t self sh irs).self cs).2[i]? = some (Reply.Output v) := by
  have hcol : (PluginData.InitRender t self sh irs).self.color = v := by
    simp only [PluginData.InitRender]
    exact GetVector_of_GetData _ _ _ hv
  refine ⟨rfl, rfl, hcol, ?_⟩
  intro cs hcs i chn cd hi
  rw [run_reply_of_no_InitRender t _ cs hcs i chn cd hi, hcol]

/-- C2 at a concrete input: the sample shader holds `sampleColor`; after
`InitRender` on a fresh instance, an `Output` that is handed a shader with an
empty container, after a `FreeRender` and an `Init`, still returns
`sampleColor`. -/
theorem C2_InitRender_stores_color_witness :
    sampleShader.data.GetData sampleTemplate.COLOR = GeData.DA_VECTOR sampleColor ∧
    (run sampleTemplate (PluginData.InitRender sampleTemplate PluginData.Alloc sampleShader
        sampleIrs).self
      [Callback.FreeRender sampleShader, Callback.Init sampleShader,
        Callback.Output (some emptyShader) none]).2[2]? = some (Reply.Output sampleColor) :=
  ⟨rfl,
    (C2_InitRender_stores_color sampleTemplate PluginData.Alloc sampleShader sampleIrs
      sampleColor rfl).2.2.2
      [Callback.FreeRender sampleShader, Callback.Init sampleShader,
        Callback.Output (some emptyShader) none]
      (by
        intro c hc
        simp only [List.mem_cons, List.mem_singleton, List.not_mem_nil, or_false] at hc
        rcases hc with hc | hc | hc <;> subst hc <;> rfl)
      2 (some emptyShader) none rfl⟩

/-- C3: `PluginStart` returns false exactly when the registration function
returns false and true exactly when it returns true; what it adds to the call
log holds exactly one call of the registration function, and its `GePrint`
calls are the one banner when registration succeeded and none when it
failed. -/
theorem C3_PluginStart_registers_once (t : Template) (h : Host) (log : Log) :
    ((PluginStart t h log).1 = false ↔ (Register_PluginNameAsID t h log).1 = false) ∧
    ((PluginStart t h log).1 = true ↔ (Register_PluginNameAsID t h log).1 = true) ∧
    ∃ added : Log, (PluginStart t h log).2 = log ++ added ∧
      added.count HostCall.Register_PluginNameAsID = 1 ∧
      added.filter HostCall.isGePrint =
        (if (Register_PluginNameAsID t h log).1 = true then [HostCall.GePrint (banner t)]
         else []) := by
  obtain ⟨str, hlog⟩ := Register_PluginNameAsID_log t h log
  rw [PluginStart_eq, hlog]
  cases hr : (Register_PluginNameAsID t h log).1
  · refine ⟨by simp, by simp, _, rfl, ?_, ?_⟩
    · simp [List.count_cons]
    · simp [HostCall.isGePrint, List.filter]
  · refine ⟨by simp, by simp, ?_⟩
    refine ⟨[HostCall.Register_PluginNameAsID, HostCall.GeLoadString t.IDS,
      HostCall.RegisterShaderPlugin t.ID str 0 t.PluginNameAsID 0,
      HostCall.GePrint (banner t)], by simp, ?_, ?_⟩
    · simp [List.count_cons]
    · simp [HostCall.isGePrint, List.filter]

/-- C4, as stated, fails: there is no template, instance state and node for
which `Init` returns false. -/
theorem C4_Init_returns_false_counterexample :
    ¬ ∃ (t : Template) (self : PluginData) (node : BaseShader),
      (PluginData.Init t self node).ret = false := by
  rintro ⟨t, self, node, h⟩
  simp [PluginData.Init] at h

/-- C4, amended: `Init` does not signal failure; for every node (and every
template and instance state) it returns true. -/
theorem C4_Init_returns_true (t : Template) (self : PluginData) (node : BaseShader) :
    (PluginData.Init t self node).ret = true := by
  rfl

/-- C5: for `id = C4DPL_INIT_SYS` and every data pointer, `PluginMessage`
adds exactly one `resource.Init()` call to the log (and nothing else) and
returns true if and only if that call succeeded. -/
theorem C5_PluginMessage_INIT_SYS (m : MessageCodes) (h : Host) (log : Log) (data : VoidPtr) :
    (PluginMessage m h log m.C4DPL_INIT_SYS data).2 = log ++ [HostCall.resource_Init] ∧
    ((PluginMessage m h log m.C4DPL_INIT_SYS data).2.count HostCall.resource_Init =
      log.count HostCall.resource_Init + 1) ∧
    ((PluginMessage m h log m.C4DPL_INIT_SYS data).1 = true ↔ h.resource_Init log = true) := by
  have hlog : (PluginMessage m h log m.C4DPL_INIT_SYS data).2 = log ++ [HostCall.resource_Init] := by
    cases hr : h.resource_Init log <;> simp [PluginMessage, hr]
  refine ⟨hlog, ?_, ?_⟩
  · rw [hlog]
    simp
  · cases hr : h.resource_Init log <;> simp [PluginMessage, hr]

/-- C6: in every call sequence that follows the host lifecycle from `Alloc`
on, before every `Output` call there is a most recent `InitRender` (no other
`InitRender` comes between the two), the color of the instance at the
`Output` call is the color value that `InitRender` read from its shader's
container, and `Output` returns it. -/
theorem C6_color_set_before_Output (t : Template) (cs pre post : List Callback)
    (chn : Option BaseShader) (cd : Option ChannelData)
    (hlife : followsLifecycle cs) (hsplit : cs = pre ++ Callback.Output chn cd :: post) :
    ∃ (before : List Callback) (sh : BaseShader) (irs : InitRenderStruct)
      (between : List Callback),
      pre = before ++ Callback.InitRender sh irs :: between ∧
      (∀ c ∈ between, c.isInitRender = false) ∧
      (PluginData.InitRender t (run t PluginData.Alloc before).1 sh irs).self.color =
        sh.data.GetVector t.COLOR ∧
      (run t PluginData.Alloc pre).1.color = sh.data.GetVector t.COLOR ∧
      (PluginData.Output (run t PluginData.Alloc pre).1 chn cd).ret =
        sh.data.GetVector t.COLOR := by
  subst hsplit
  obtain ⟨before, sh, irs, between, hpre, hbetween⟩ :=
    Phase.rendering_of_after pre (Phase.rendering_before_Output pre post chn cd hlife)
  have hcolor : (run t PluginData.Alloc pre).1.color = sh.data.GetVector t.COLOR := by
    rw [hpre, run_append]
    simp only
    rw [run_cons]
    simp only
    rw [run_color_of_no_InitRender t _ between hbetween]
    rfl
  exact ⟨before, sh, irs, between, hpre, hbetween, rfl, hcolor, hcolor⟩

/-- C6 at a concrete input: `Init`, then a render pass on the sample shader
with two `Output` calls; the sequence follows the lifecycle and the second
`Output` has the `InitRender` before it. -/
theorem C6_color_set_before_Output_witness :
    followsLifecycle
      [Callback.Init emptyShader, Callback.InitRender sampleShader sampleIrs,
        Callback.Output none none, Callback.Output (some emptyShader) none,
        Callback.FreeRender sampleShader] ∧
    ∃ (before : List Callback) (sh : BaseShader) (irs : InitRenderStruct)
      (between : List Callback),
      [Callback.Init emptyShader, Callback.InitRender sampleShader sampleIrs,
        Callback.Output none none] = before ++ Callback.InitRender sh irs :: between ∧
      (∀ c ∈ between, c.isInitRender = false) ∧
      (PluginData.InitRender sampleTemplate (run sampleTemplate PluginData.Alloc before).1 sh
        irs).self.color = sh.data.GetVector sampleTemplate.COLOR ∧
      (run sampleTemplate PluginData.Alloc
        [Callback.Init emptyShader, Callback.InitRender sampleShader sampleIrs,
          Callback.Output none none]).1.color = sh.data.GetVector sampleTemplate.COLOR ∧
      (PluginData.Output (run sampleTemplate PluginData.Alloc
        [Callback.Init emptyShader, Callback.InitRender sampleShader sampleIrs,
          Callback.Output none none]).1 (some emptyShader) none).ret =
        sh.data.GetVector sampleTemplate.COLOR :=
  ⟨by decide,
    C6_color_set_before_Output sampleTemplate
      [Callback.Init emptyShader, Callback.InitRender sampleShader sampleIrs,
        Callback.Output none none, Callback.Output (some emptyShader) none,
        Callback.FreeRender sampleShader]
      [Callback.Init emptyShader, Callback.InitRender sampleShader sampleIrs,
        Callback.Output none none]
      [Callback.FreeRender sampleShader] (some emptyShader) none (by decide) rfl⟩

/-- C7: `FreeRender` changes neither the instance (so not its color) nor the
shader (so not its container), for every instance state and every shader;
an `Output` call after it returns the same vector as an `Output` call just
before it, whatever the arguments of the two calls. -/
theorem C7_FreeRender_changes_nothing (self : PluginData) (sh : BaseShader) :
    (PluginData.FreeRender self sh).self.color = self.color ∧
    (PluginData.FreeRender self sh).sh.data = sh.data ∧
    (PluginData.FreeRender self sh).self = self ∧
    (PluginData.FreeRender self sh).sh = sh ∧
    ∀ (chn1 chn2 : Option BaseShader) (cd1 cd2 : Option ChannelData),
      (PluginData.Output (PluginData.FreeRender (PluginData.Output self chn1 cd1).self sh).self
        chn2 cd2).ret = (PluginData.Output self chn1 cd1).ret := by
  refine ⟨rfl, rfl, rfl, rfl, ?_⟩
  intro chn1 chn2 cd1 cd2
  rfl

/-- C8: `DEFAULT_COLOR` is the vector (1/2, 1/2, 1/2); for every node, `Init`
returns true, stores that vector under the color id of the node's container
and leaves the value under every other id unchanged; and `Init`, then
`InitRender` on the node as `Init` left it, then `Output` returns
(1/2, 1/2, 1/2), whatever the container held before and whatever the instance
state was. -/
theorem C8_default_color_round_trip (t : Template) (self : PluginData) (node : BaseShader) :
    DEFAULT_COLOR = ⟨1/2, 1/2, 1/2⟩ ∧
    (PluginData.Init t self node).ret = true ∧
    (PluginData.Init t self node).node.data.GetData t.COLOR =
      GeData.DA_VECTOR ⟨1/2, 1/2, 1/2⟩ ∧
    (∀ k : Int, k ≠ t.COLOR →
      (PluginData.Init t self node).node.data.GetData k = node.data.GetData k) ∧
    ∀ (irs : InitRenderStruct) (chn : Option BaseShader) (cd : Option ChannelData),
      (PluginData.Output
        (PluginData.InitRender t (PluginData.Init t self node).self
          (PluginData.Init t self node).node irs).self chn cd).ret = ⟨1/2, 1/2, 1/2⟩ := by
  refine ⟨DEFAULT_COLOR_eq, rfl, ?_, ?_, ?_⟩
  · simp [PluginData.Init, BaseContainer.SetVector, DEFAULT_COLOR_eq]
  · intro k hk
    simp [PluginData.Init, BaseContainer.SetVector, hk]
  · intro irs chn cd
    simp only [PluginData.Output, PluginData.InitRender, PluginData.Init]
    rw [GetVector_SetVector, DEFAULT_COLOR_eq]

/-- C8 at a concrete input: the sample shader holds another color before
`Init`; id 7 is not the color id and keeps its value, and the round trip from
a fresh instance gives (1/2, 1/2, 1/2). -/
theorem C8_default_color_round_trip_witness :
    (7 : Int) ≠ sampleTemplate.COLOR ∧
    (PluginData.Init sampleTemplate PluginData.Alloc sampleShader).node.data.GetData 7 =
      sampleShader.data.GetData 7 ∧
    (PluginData.Output
      (PluginData.InitRender sampleTemplate
        (PluginData.Init sampleTemplate PluginData.Alloc sampleShader).self
        (PluginData.Init sampleTemplate PluginData.Alloc sampleShader).node sampleIrs).self
      none none).ret = ⟨1/2, 1/2, 1/2⟩ :=
  ⟨by decide,
    (C8_default_color_round_trip sampleTemplate PluginData.Alloc sampleShader).2.2.2.1 7
      (by decide),
    (C8_default_color_round_trip sampleTemplate PluginData.Alloc sampleShader).2.2.2.2
      sampleIrs none none⟩

/-- C9: when the three message codes are pairwise distinct, `PluginMessage`
returns true for `C4DMSG_PRIORITY` and false for every id other than
`C4DPL_INIT_SYS` and `C4DMSG_PRIORITY`, among them `C4DPL_BUILDMENU`; in both
cases the log is unchanged (no `resource.Init()` call) for every data
pointer, so the result does not depend on `data`. -/
theorem C9_PluginMessage_other_ids (m : MessageCodes) (h : Host) (log : Log)
    (hdistinct : m.C4DPL_INIT_SYS ≠ m.C4DMSG_PRIORITY ∧ m.C4DPL_INIT_SYS ≠ m.C4DPL_BUILDMENU ∧
      m.C4DMSG_PRIORITY ≠ m.C4DPL_BUILDMENU) :
    (∀ data : VoidPtr, PluginMessage m h log m.C4DMSG_PRIORITY data = (true, log)) ∧
    (∀ (id : Int) (data : VoidPtr), id ≠ m.C4DPL_INIT_SYS → id ≠ m.C4DMSG_PRIORITY →
      PluginMessage m h log id data = (false, log)) ∧
    (∀ data : VoidPtr, PluginMessage m h log m.C4DPL_BUILDMENU data = (false, log)) ∧
    (∀ (id : Int) (data1 data2 : VoidPtr), id ≠ m.C4DPL_INIT_SYS →
      PluginMessage m h log id data1 = PluginMessage m h log id data2 ∧
      (PluginMessage m h log id data1).2.count HostCall.resource_Init =
        log.count HostCall.resource_Init) := by
  obtain ⟨h1, h2, h3⟩ := hdistinct
  have hother : ∀ (id : Int) (data : VoidPtr), id ≠ m.C4DPL_INIT_SYS →
      id ≠ m.C4DMSG_PRIORITY → PluginMessage m h log id data = (false, log) := by
    intro id data hi hp
    simp [PluginMessage, hi, hp]
  have hprio : ∀ data : VoidPtr, PluginMessage m h log m.C4DMSG_PRIORITY data = (true, log) := by
    intro data
    simp [PluginMessage, Ne.symm h1]
  refine ⟨hprio, hother, fun data => hother _ data (Ne.symm h2) (Ne.symm h3), ?_⟩
  intro id data1 data2 hi
  by_cases hp : id = m.C4DMSG_PRIORITY
  · subst hp
    rw [hprio data1, hprio data2]
    exact ⟨rfl, rfl⟩
  · rw [hother id data1 hi hp, hother id data2 hi hp]
    exact ⟨rfl, rfl⟩

/-- C9 at the SDK's values of the message codes (6, 0 and 1001187), on the
sample host with an empty log. -/
theorem C9_PluginMessage_other_ids_witness :
    (sampleCodes.C4DPL_INIT_SYS ≠ sampleCodes.C4DMSG_PRIORITY ∧
      sampleCodes.C4DPL_INIT_SYS ≠ sampleCodes.C4DPL_BUILDMENU ∧
      sampleCodes.C4DMSG_PRIORITY ≠ sampleCodes.C4DPL_BUILDMENU) ∧
    PluginMessage sampleCodes sampleHost [] sampleCodes.C4DMSG_PRIORITY 0 = (true, []) ∧
    PluginMessage sampleCodes sampleHost [] 12345 0 = (false, []) ∧
    PluginMessage sampleCodes sampleHost [] sampleCodes.C4DPL_BUILDMENU 0 = (false, []) :=
  ⟨by decide,
    (C9_PluginMessage_other_ids sampleCodes sampleHost [] (by decide)).1 0,
    (C9_PluginMessage_other_ids sampleCodes sampleHost [] (by decide)).2.1 12345 0
      (by decide) (by decide),
    (C9_PluginMessage_other_ids sampleCodes sampleHost [] (by decide)).2.2.1 0⟩

end C4DPlugin
